import Mathlib

/-
  Verification development for the Urban-Shield-AI repository
  (flood risk scoring and multi-hazard alert pipeline).

  Numbers of the JavaScript/TypeScript source are modelled as rationals.
  Functions present under the frontend source are translated directly;
  backend components absent from the sources are modelled from the
  specification and carry a doc comment saying so.
-/

namespace UrbanShield

/-! ## Risk categorization (frontend/src/components/RiskGauge.tsx) -/

structure RiskInfo where
  category : String
  colorClass : String
  strokeColor : String
  deriving DecidableEq

/-- Translation of `getRiskInfo` from frontend/src/components/RiskGauge.tsx. -/
def getRiskInfo (value : ℚ) : RiskInfo :=
  if value ≤ 30 then ⟨"Low", "text-risk-low", "hsl(142, 71%, 45%)"⟩
  else if value ≤ 60 then ⟨"Moderate", "text-risk-moderate", "hsl(48, 96%, 53%)"⟩
  else if value ≤ 85 then ⟨"High", "text-risk-high", "hsl(25, 95%, 53%)"⟩
  else ⟨"Severe", "text-risk-severe", "hsl(0, 72%, 51%)"⟩

/-- Translation of `getRiskStatus` from frontend/src/pages/Monitoring.tsx. -/
def getRiskStatus (riskScore : ℚ) : String :=
  if riskScore ≤ 30 then "Low"
  else if riskScore ≤ 60 then "Moderate"
  else if riskScore ≤ 85 then "High"
  else "Severe"

/-! ## City configuration tables (three copies in the frontend pages) -/

/-- Translation of `PAKISTAN_CITIES` from frontend/src/pages/Predict.tsx. -/
def PAKISTAN_CITIES_predict : List (String × List String) :=
  [("Punjab", ["Lahore", "Faisalabad", "Rawalpindi", "Multan", "Gujranwala",
      "Sialkot", "Bahawalpur", "Sargodha", "Sheikhupura", "Rahim Yar Khan"]),
   ("Sindh", ["Karachi", "Hyderabad", "Sukkur", "Larkana", "Nawabshah",
      "Mirpur Khas", "Jacobabad", "Shikarpur", "Dadu", "Thatta"]),
   ("Khyber Pakhtunkhwa", ["Peshawar", "Mardan", "Abbottabad", "Swat", "Kohat",
      "Bannu", "Dera Ismail Khan", "Charsadda", "Nowshera", "Mansehra"]),
   ("Balochistan", ["Quetta", "Gwadar", "Turbat", "Khuzdar", "Chaman",
      "Sibi", "Loralai", "Zhob", "Dera Bugti", "Panjgur"]),
   ("Gilgit-Baltistan", ["Gilgit", "Skardu", "Hunza", "Chilas", "Ghizer"]),
   ("Azad Kashmir", ["Muzaffarabad", "Mirpur", "Rawalakot", "Kotli", "Bhimber"]),
   ("Islamabad", ["Islamabad"])]

/-- Translation of `PAKISTAN_CITIES` from frontend/src/pages/Monitoring.tsx. -/
def PAKISTAN_CITIES_monitoring : List (String × List String) :=
  [("Punjab", ["Lahore", "Faisalabad", "Rawalpindi", "Multan", "Gujranwala",
      "Sialkot", "Bahawalpur", "Sargodha", "Sheikhupura", "Rahim Yar Khan"]),
   ("Sindh", ["Karachi", "Hyderabad", "Sukkur", "Larkana", "Nawabshah",
      "Mirpur Khas", "Jacobabad", "Shikarpur", "Dadu", "Thatta"]),
   ("Khyber Pakhtunkhwa", ["Peshawar", "Mardan", "Abbottabad", "Swat", "Kohat",
      "Bannu", "Dera Ismail Khan", "Charsadda", "Nowshera", "Mansehra"]),
   ("Balochistan", ["Quetta", "Gwadar", "Turbat", "Khuzdar", "Chaman",
      "Sibi", "Loralai", "Zhob", "Dera Bugti", "Panjgur"]),
   ("Gilgit-Baltistan", ["Gilgit", "Skardu", "Hunza", "Chilas", "Ghizer"]),
   ("Azad Kashmir", ["Muzaffarabad", "Mirpur", "Rawalakot", "Kotli", "Bhimber"]),
   ("Islamabad", ["Islamabad"])]

/-- Translation of `PAKISTAN_CITIES` from frontend/src/pages/Historical.tsx. -/
def PAKISTAN_CITIES_historical : List (String × List String) :=
  [("Punjab", ["Lahore", "Faisalabad", "Rawalpindi", "Multan", "Gujranwala",
      "Sialkot", "Bahawalpur", "Sargodha", "Sheikhupura", "Rahim Yar Khan"]),
   ("Sindh", ["Karachi", "Hyderabad", "Sukkur", "Larkana", "Nawabshah",
      "Mirpur Khas", "Jacobabad", "Shikarpur", "Dadu", "Thatta"]),
   ("Khyber Pakhtunkhwa", ["Peshawar", "Mardan", "Abbottabad", "Swat", "Kohat",
      "Bannu", "Dera Ismail Khan", "Charsadda", "Nowshera", "Mansehra"]),
   ("Balochistan", ["Quetta", "Gwadar", "Turbat", "Khuzdar", "Chaman",
      "Sibi", "Loralai", "Zhob", "Dera Bugti", "Panjgur"]),
   ("Gilgit-Baltistan", ["Gilgit", "Skardu", "Hunza", "Chilas", "Ghizer"]),
   ("Azad Kashmir", ["Muzaffarabad", "Mirpur", "Rawalakot", "Kotli", "Bhimber"]),
   ("Islamabad", ["Islamabad"])]

/-- The flattening `Object.values(PAKISTAN_CITIES).flat()` used by each page
to build its `ALL_CITIES` dropdown list (the subsequent `.sort()` does not
change the underlying set of names). -/
def citiesOf (tbl : List (String × List String)) : List String :=
  (tbl.map Prod.snd).flatten

/-! ## Alerts page (the `AlertsPage` component bundled in frontend/src/lib) -/

/-- JavaScript truthiness helper for numeric fields: `x || d` evaluates to
`d` when `x` is `undefined` or `0`, and to `x` otherwise. -/
def numOrElse (o : Option ℚ) (d : ℚ) : ℚ :=
  match o with
  | some x => if x = 0 then d else x
  | none => d

/-- JavaScript `String.prototype.includes`: `s` contains `pat` exactly when
splitting `s` on `pat` yields more than one piece. -/
def jsIncludes (s pat : String) : Bool :=
  (s.splitOn pat).length != 1

/-- The `Alert` record consumed by the alerts page
(interface `Alert` in frontend/src/services/api.ts). -/
structure FrontAlert where
  alert_type : String
  severity : String
  message : String
  temperature : Option ℚ
  wind_speed : Option ℚ
  rainfall : Option ℚ
  actions : List String
  deriving DecidableEq

/-- An entry of the list built by `getActiveAlerts` on the alerts page.
The `icon` field holds the name of the chosen icon component. -/
structure ActiveAlert where
  id : ℕ
  type : String
  zone : String
  risk : ℚ
  category : String
  message : String
  icon : String
  color : String
  actions : Option (List String)
  deriving DecidableEq

/-- The part of the prediction payload that `getActiveAlerts` reads. -/
structure AlertsPageData where
  risk_score : Option ℚ
  weather_alerts : List FrontAlert
  deriving DecidableEq

/-- Icon and colour chosen for a weather alert by `getActiveAlerts`. -/
def weatherAlertIcon (t : String) : String × String :=
  if jsIncludes t "HEAT" then ("Sun", "orange")
  else if jsIncludes t "COLD" then ("CloudSnow", "blue")
  else if jsIncludes t "STORM" then ("CloudLightning", "purple")
  else if jsIncludes t "RAIN" then ("CloudRain", "blue")
  else if jsIncludes t "WIND" then ("Wind", "gray")
  else ("AlertTriangle", "yellow")

/-- Translation of `getActiveAlerts` from the alerts page: a flood alert is
added when the risk score reaches the user threshold, with its own category
boundaries, then the backend weather alerts are appended and the list is cut
to five entries. -/
def getActiveAlerts (predictionData : Option AlertsPageData) (threshold : ℚ)
    (selectedCity : String) : List ActiveAlert :=
  match predictionData with
  | none => []
  | some pd =>
    let floodRisk := numOrElse pd.risk_score 0
    let floodAlerts : List ActiveAlert :=
      if floodRisk ≥ threshold then
        let catMsg : String × String :=
          if floodRisk ≥ 85 then
            ("Severe", "Critical flood risk detected. Immediate action recommended.")
          else if floodRisk ≥ 70 then
            ("High", "Water levels rising rapidly. Prepare for possible evacuation.")
          else if floodRisk ≥ 50 then
            ("Moderate", "Moderate flood risk. Monitor weather updates.")
          else ("Moderate", "Moderate flood risk detected. Stay informed.")
        [{ id := 1, type := "FLOOD", zone := selectedCity ++ " Area",
           risk := floodRisk, category := catMsg.1, message := catMsg.2,
           icon := "AlertTriangle",
           color := if floodRisk ≥ 85 then "red"
                    else if floodRisk ≥ 70 then "orange" else "yellow",
           actions := none }]
      else []
    let step := pd.weather_alerts.foldl
      (fun (acc : List ActiveAlert) (a : FrontAlert) =>
        let ic := weatherAlertIcon a.alert_type
        acc ++ [{ id := acc.length + 1,
                  type := a.alert_type,
                  zone := if jsIncludes a.alert_type "FORECAST" then
                            selectedCity ++ " (Forecast)" else selectedCity,
                  risk := numOrElse a.temperature (numOrElse a.wind_speed 0),
                  category := a.severity,
                  message := a.message,
                  icon := ic.1,
                  color := if a.severity = "CRITICAL" then "red"
                           else if a.severity = "HIGH" then "orange" else "yellow",

                  actions := some a.actions }])
      floodAlerts
    step.take 5

/-! ## Monitoring page synthetic generators (frontend/src/pages/Monitoring.tsx) -/

/-- One point of the synthetic history built by `generateHistoricalData`.
The JavaScript Date timestamp is modelled as an integer offset. -/
structure HistPoint where
  timestamp : ℤ
  risk_score : ℚ
  temperature : ℚ
  rainfall : ℚ
  humidity : ℚ
  deriving DecidableEq

/-- The four `Math.random()` draws consumed by one loop iteration of
`generateHistoricalData` (variation, temperature, rainfall, humidity). -/
structure RndDraw where
  variation : ℚ
  temp : ℚ
  rain : ℚ
  humid : ℚ
  deriving DecidableEq

/-- The fields of the prediction payload that `generateHistoricalData` reads. -/
structure MonitoringData where
  risk_score : Option ℚ
  temperature : ℚ
  rainfall : Option ℚ
  humidity : Option ℚ
  city : String
  deriving DecidableEq

/-- JavaScript `Math.max` on two numbers (NaN aside). -/
def jsMax (a b : ℚ) : ℚ := if a ≤ b then b else a

/-- JavaScript `Math.min` on two numbers (NaN aside). -/
def jsMin (a b : ℚ) : ℚ := if a ≤ b then a else b

/-- Point count per time range: 24 for "24h", 7 for "7d", otherwise 30. -/
def rangePoints (range : String) : ℕ :=
  if range = "24h" then 24 else if range = "7d" then 7 else 30

/-- Translation of `generateHistoricalData` from the monitoring page: the loop
runs `i` from `points` down to `0`; each iteration clamps
`currentRisk + (random * 20 - 10)` into the closed interval from 0 to 100,
and the resulting list is sorted by timestamp (the date built from `now - i`
is modelled as the integer `-i`; the engine sort is modelled by insertion
sort, which builds the same sorted list). -/
def generateHistoricalData (data : MonitoringData) (range : String)
    (draws : ℕ → RndDraw) : List HistPoint :=
  let currentRisk := numOrElse data.risk_score 0
  let n := rangePoints range
  let historical : List HistPoint :=
    ((List.range (n + 1)).reverse).map (fun i =>
      let d := draws i
      { timestamp := -(i : ℤ),
        risk_score := jsMax 0 (jsMin 100 (currentRisk + (d.variation * 20 - 10))),
        temperature := data.temperature + (d.temp * 2 - 1),
        rainfall := jsMax 0 (numOrElse data.rainfall 0 + (d.rain * 5 - 5/2)),
        humidity := jsMin 100 (jsMax 0 (numOrElse data.humidity 70 + (d.humid * 10 - 5))) })
  historical.insertionSort (fun a b => a.timestamp ≤ b.timestamp)

/-- One of the six synthetic zones built by `getNearbyZones`. -/
structure Zone where
  id : ℕ
  name : String
  risk : ℚ
  lastUpdate : String
  deriving DecidableEq

/-- Translation of `getNearbyZones` from the monitoring page: six zones, each
with a clamped perturbation of the base risk, sorted by descending risk
(the engine sort is modelled by insertion sort on the same comparator). -/
def getNearbyZones (monitoringData : Option MonitoringData)
    (draws : ℕ → ℚ) : List Zone :=
  match monitoringData with
  | none => []
  | some md =>
    let baseRisk := numOrElse md.risk_score 0
    let city := md.city
    let zones : List Zone :=
      [{ id := 1, name := city ++ " Central",
         risk := jsMin 100 (jsMax 0 (baseRisk + (draws 1 * 15 - 5))),
         lastUpdate := "2 min ago" },
       { id := 2, name := city ++ " East",
         risk := jsMin 100 (jsMax 0 (baseRisk + (draws 2 * 20 - 8))),
         lastUpdate := "5 min ago" },
       { id := 3, name := city ++ " West",
         risk := jsMin 100 (jsMax 0 (baseRisk + (draws 3 * 12 - 10))),
         lastUpdate := "1 min ago" },
       { id := 4, name := city ++ " South",
         risk := jsMin 100 (jsMax 0 (baseRisk + (draws 4 * 25 - 5))),
         lastUpdate := "3 min ago" },
       { id := 5, name := city ++ " North",
         risk := jsMin 100 (jsMax 0 (baseRisk + (draws 5 * 18 - 12))),
         lastUpdate := "4 min ago" },
       { id := 6, name := city ++ " Suburbs",
         risk := jsMin 100 (jsMax 0 (baseRisk + (draws 6 * 22 - 15))),
         lastUpdate := "6 min ago" }]
    zones.insertionSort (fun a b => b.risk ≤ a.risk)

/-! ## Health check (frontend/src/services/api.ts) -/

/-- A minimal model of JSON values, enough to state what `checkHealth`
returns on each outcome of the underlying fetch. -/
inductive Js where
  | str : String → Js
  | num : ℚ → Js
  | boolean : Bool → Js
  | obj : List (String × Js) → Js

/-- The object returned by `checkHealth` when anything throws. -/
def healthFallback : Js :=
  Js.obj [("status", Js.str "unhealthy"), ("message", Js.str "Cannot connect to backend")]

/-- Translation of `checkHealth` from frontend/src/services/api.ts. The
awaited fetch either throws (outer `Except.error`), or yields a response
whose `json()` call either throws (inner `Except.error`) or parses to a
value; both throws land in the single catch, which returns the fallback
object instead of propagating. -/
def checkHealth (outcome : Except Unit (Except Unit Js)) : Js :=
  match outcome with
  | .ok (.ok data) => data
  | .ok (.error _) => healthFallback
  | .error _ => healthFallback

/-! ## Chat streaming (frontend/src/lib/chat-stream.ts) -/

/-- Callback events of `streamChat`, in call order: `delta` is a call to
`onDelta`, `done` to `onDone`, `error` to `onError`. -/
inductive ChatEv where
  | delta : String → ChatEv
  | done : ChatEv
  | error : String → ChatEv
  deriving DecidableEq

/-- The fetch response as `streamChat` observes it: the `ok` flag, the HTTP
status, the result of `resp.json()` on the error path (`none` when parsing
rejects, otherwise the optional `error` field of the parsed body), and the
optional body modelled as the list of decoded text chunks. -/
structure ChatHttpResp where
  ok : Bool
  status : ℕ
  jsonBody : Option (Option String)
  body : Option (List String)

/-- The error body used on a non-ok response:
`await resp.json().catch(() => ({ error: "Request failed" }))` — a rejected
parse is replaced by an object whose `error` field is "Request failed". -/
def nonOkBody (resp : ChatHttpResp) : Option String :=
  match resp.jsonBody with
  | none => some "Request failed"
  | some f => f

/-- The message passed to `onError` on a non-ok response (the
`body.error || "Something went wrong."` fallback treats a missing field and
an empty string alike, both being falsy). -/
def nonOkMessage (resp : ChatHttpResp) : String :=
  if resp.status = 429 then "Rate limit reached — please wait a moment and try again."
  else if resp.status = 402 then "AI usage limit reached. Please add credits."
  else match nonOkBody resp with
    | some e => if e = "" then "Something went wrong." else e
    | none => "Something went wrong."

/-- Strip one trailing carriage return, as the line loop does. -/
def stripCR (line : String) : String :=
  if line.endsWith "\r" then line.dropRight 1 else line

/-- Rebuild a buffer string from a list of complete lines and the trailing
incomplete piece. -/
def rejoinBuf : List String → String → String
  | [], t => t
  | l :: ls, t => l ++ "\n" ++ rejoinBuf ls t

/-- Outcome of draining the complete lines currently in the buffer. -/
structure SseStep where
  events : List ChatEv
  buf : String
  finished : Bool

/-- The inner `while ((idx = buf.indexOf("\n")) !== -1)` loop of `streamChat`
over the complete lines of the buffer. `parse` is the `JSON.parse` oracle for
a data payload: `none` when parsing throws, otherwise the optional
`choices[0].delta.content` string. A throwing parse pushes the line back onto
the buffer and breaks; a "[DONE]" payload breaks with the finished flag; an
emitted delta requires a truthy (non-empty) content string. -/
def processLines (parse : String → Option (Option String)) :
    List String → String → SseStep
  | [], trailing => ⟨[], trailing, false⟩
  | l :: ls, trailing =>
    let line := stripCR l
    if line.startsWith ":" || line.trim = "" then processLines parse ls trailing
    else if !(line.startsWith "data: ") then processLines parse ls trailing
    else
      let json := (line.drop 6).trim
      if json = "[DONE]" then ⟨[], rejoinBuf ls trailing, true⟩
      else match parse json with
        | some c =>
          let rest := processLines parse ls trailing
          match c with
          | some s =>
            if s = "" then rest
            else ⟨ChatEv.delta s :: rest.events, rest.buf, rest.finished⟩
          | none => rest
        | none => ⟨[], line ++ "\n" ++ rejoinBuf ls trailing, false⟩

/-- The outer reader loop of `streamChat`: each decoded chunk is appended to
the buffer, whose complete lines are then drained; a finished inner step
stops reading. Returns the emitted events and the final buffer remainder. -/
def processChunks (parse : String → Option (Option String)) :
    List String → String → List ChatEv × String
  | [], buf => ([], buf)
  | c :: cs, buf =>
    let parts := (buf ++ c).splitOn "\n"
    let step := processLines parse parts.dropLast ((parts.getLast?).getD "")
    if step.finished then (step.events, step.buf)
    else
      let next := processChunks parse cs step.buf
      (step.events ++ next.1, next.2)

/-- The flush-remainder pass of `streamChat` over what is left in the buffer
after the reader is exhausted. -/
def flushRemainder (parse : String → Option (Option String)) (buf : String) :
    List ChatEv :=
  if buf.trim = "" then []
  else (buf.splitOn "\n").flatMap (fun raw =>
    if raw = "" then []
    else
      let r := stripCR raw
      if !(r.startsWith "data: ") then []
      else
        let json := (r.drop 6).trim
        if json = "[DONE]" then []
        else match parse json with
          | some (some c) => if c = "" then [] else [ChatEv.delta c]
          | _ => [])

/-- Translation of `streamChat` from frontend/src/lib/chat-stream.ts as the
sequence of callback invocations it performs on a given response. -/
def streamChat (parse : String → Option (Option String))
    (resp : ChatHttpResp) : List ChatEv :=
  if resp.ok then
    match resp.body with
    | none => [ChatEv.error "No response body."]
    | some chunks =>
      let run := processChunks parse chunks ""
      run.1 ++ flushRemainder parse run.2 ++ [ChatEv.done]
  else [ChatEv.error (nonOkMessage resp)]

/-! ## Backend pipeline, modelled from the specification

The Flask backend (`backend/api.py`, `backend/alert_engine.py`) is not among
the provided sources — only its TypeScript callers and response-type
declarations are. The definitions below are therefore modelled from the
specification and each says so in its doc comment. -/

/-- The Observation record of the data model (section 3 of the spec). -/
structure Observation where
  city : String
  temperature : ℚ
  humidity : ℚ
  rainfall : ℚ
  wind_speed : ℚ
  pressure : ℚ
  deriving DecidableEq

/-- The ForecastDay record of the data model (section 3 of the spec). -/
structure ForecastDay where
  date : String
  max_temp : ℚ
  min_temp : ℚ
  avg_temp : ℚ
  rain : ℚ
  wind_speed : ℚ
  humidity : ℚ
  deriving DecidableEq

/-- The WeatherAlert record, following the `WeatherAlert` interface declared
in the unnamed api.ts copy (src/unnamed/part_003): severity is carried as a
string so that the range of emitted severities is a provable property rather
than a typing artefact. -/
structure WeatherAlert where
  alert_type : String
  severity : String
  message : String
  temperature : Option ℚ
  wind_speed : Option ℚ
  rainfall : Option ℚ
  start_date : Option String
  end_date : Option String
  actions : List String
  deriving DecidableEq

/-- Modelled from the spec: the fixed action table keyed by alert type and
severity (section 4.5). The spec fixes only the shape (an ordered list of
strings per key); no claim depends on the contents, so the table maps every
key to an empty list. -/
def actionsFor (alert_type severity : String) : List String :=
  match alert_type, severity with
  | _, _ => []

/-- Helper building a current-observation alert record. -/
def mkAlert (t s msg : String) (temp ws rf : Option ℚ) : WeatherAlert :=
  ⟨t, s, msg, temp, ws, rf, none, none, actionsFor t s⟩

/-- Modelled from the spec: HEATWAVE rule of the Hazard Alert Engine
(section 4.5) — temperature at or above 40 gives severity HIGH, at or above
45 gives CRITICAL, the stronger rule taking over. -/
def heatAlerts (o : Observation) : List WeatherAlert :=
  if o.temperature ≥ 45 then
    [mkAlert "HEATWAVE" "CRITICAL" "Extreme heatwave conditions." (some o.temperature) none none]
  else if o.temperature ≥ 40 then
    [mkAlert "HEATWAVE" "HIGH" "Heatwave conditions." (some o.temperature) none none]
  else []

/-- Modelled from the spec: COLD_WAVE rule of the Hazard Alert Engine
(section 4.5) — temperature at or below 4 gives HIGH, at or below 0 gives
CRITICAL. -/
def coldAlerts (o : Observation) : List WeatherAlert :=
  if o.temperature ≤ 0 then
    [mkAlert "COLD_WAVE" "CRITICAL" "Extreme cold wave conditions." (some o.temperature) none none]
  else if o.temperature ≤ 4 then
    [mkAlert "COLD_WAVE" "HIGH" "Cold wave conditions." (some o.temperature) none none]
  else []

/-- Modelled from the spec: storm, wind and rain rules of the Hazard Alert
Engine (section 4.5) — wind at or above 25 combined with rainfall at or
above 50 in the same period yields one CRITICAL STORM alert that takes
precedence over the separate HIGH_WIND and HEAVY_RAIN alerts; otherwise wind
at or above 25 gives HIGH_WIND HIGH, at or above 15 gives MODERATE, and
rainfall at or above 100 gives HEAVY_RAIN HIGH, at or above 50 gives
MODERATE. -/
def stormAlerts (o : Observation) : List WeatherAlert :=
  if o.wind_speed ≥ 25 ∧ o.rainfall ≥ 50 then
    [mkAlert "STORM" "CRITICAL" "Severe storm conditions."
      none (some o.wind_speed) (some o.rainfall)]
  else
    (if o.wind_speed ≥ 25 then
      [mkAlert "HIGH_WIND" "HIGH" "Very strong winds." none (some o.wind_speed) none]
    else if o.wind_speed ≥ 15 then
      [mkAlert "HIGH_WIND" "MODERATE" "Strong winds." none (some o.wind_speed) none]
    else []) ++
    (if o.rainfall ≥ 100 then
      [mkAlert "HEAVY_RAIN" "HIGH" "Very heavy rainfall." none none (some o.rainfall)]
    else if o.rainfall ≥ 50 then
      [mkAlert "HEAVY_RAIN" "MODERATE" "Heavy rainfall." none none (some o.rainfall)]
    else [])

/-- Modelled from the spec: all Hazard Alert Engine rules applied to the
current observation (section 4.5). -/
def currentAlerts (o : Observation) : List WeatherAlert :=
  heatAlerts o ++ coldAlerts o ++ stormAlerts o

/-- Helper building a forecast-day alert record carrying the day's date. -/
def mkForecastAlert (t s msg : String) (temp ws rf : Option ℚ) (d : String) :
    WeatherAlert :=
  ⟨t, s, msg, temp, ws, rf, some d, some d, actionsFor t s⟩

/-- Modelled from the spec: one forecast day evaluated independently against
the same thresholds, alert types suffixed with _FORECAST and tagged with the
day's date (section 4.5); the day's maximum temperature drives the heat
rule and its minimum the cold rule. -/
def dayAlerts (d : ForecastDay) : List WeatherAlert :=
  (if d.max_temp ≥ 45 then
    [mkForecastAlert "HEATWAVE_FORECAST" "CRITICAL" "Extreme heatwave expected."
      (some d.max_temp) none none d.date]
  else if d.max_temp ≥ 40 then
    [mkForecastAlert "HEATWAVE_FORECAST" "HIGH" "Heatwave expected."
      (some d.max_temp) none none d.date]
  else []) ++
  (if d.min_temp ≤ 0 then
    [mkForecastAlert "COLD_WAVE_FORECAST" "CRITICAL" "Extreme cold expected."
      (some d.min_temp) none none d.date]
  else if d.min_temp ≤ 4 then
    [mkForecastAlert "COLD_WAVE_FORECAST" "HIGH" "Cold wave expected."
      (some d.min_temp) none none d.date]
  else []) ++
  (if d.wind_speed ≥ 25 ∧ d.rain ≥ 50 then
    [mkForecastAlert "STORM_FORECAST" "CRITICAL" "Severe storm expected."
      none (some d.wind_speed) (some d.rain) d.date]
  else
    (if d.wind_speed ≥ 25 then
      [mkForecastAlert "HIGH_WIND_FORECAST" "HIGH" "Very strong winds expected."
        none (some d.wind_speed) none d.date]
    else if d.wind_speed ≥ 15 then
      [mkForecastAlert "HIGH_WIND_FORECAST" "MODERATE" "Strong winds expected."
        none (some d.wind_speed) none d.date]
    else []) ++
    (if d.rain ≥ 100 then
      [mkForecastAlert "HEAVY_RAIN_FORECAST" "HIGH" "Very heavy rainfall expected."
        none none (some d.rain) d.date]
    else if d.rain ≥ 50 then
      [mkForecastAlert "HEAVY_RAIN_FORECAST" "MODERATE" "Heavy rainfall expected."
        none none (some d.rain) d.date]
    else []))

/-- Modelled from the spec: the full Hazard Alert Engine output —
current-observation alerts first, then forecast alerts in chronological day
order (section 4.5). -/
def alertEngine (o : Observation) (fc : List ForecastDay) : List WeatherAlert :=
  currentAlerts o ++ (fc.map dayAlerts).flatten

/-- The FloodPrediction record of the data model (section 3 of the spec). -/
structure FloodPrediction where
  prediction : ℕ
  risk_score : ℤ
  risk_category : String
  confidence : ℚ
  deriving DecidableEq

/-- The PredictionResponse record of the data model (section 3 of the spec);
the request timestamp is outside the embedding. -/
structure PredictionResponse where
  city : String
  current_weather : Observation
  flood_prediction : FloodPrediction
  weather_alerts : List WeatherAlert
  forecast_7day : List ForecastDay
  recommendations : List String
  deriving DecidableEq

/-- Modelled from the spec: the fixed recommended-actions table keyed by risk
category (section 4.4); the spec fixes only that it is a fixed four-entry
lookup, not its wording. -/
def categoryActions (category : String) : List String :=
  if category = "Low" then ["No action needed."]
  else if category = "Moderate" then ["Monitor weather updates."]
  else if category = "High" then ["Prepare an emergency kit."]
  else ["Follow evacuation guidance."]

/-- Modelled from the spec: the Risk Categorizer boundaries applied to the
0-100 risk score (sections 3 and 4.4). -/
def riskCategoryOfScore (score : ℤ) : String :=
  if score ≤ 30 then "Low"
  else if score ≤ 60 then "Moderate"
  else if score ≤ 85 then "High"
  else "Severe"

/-- Modelled from the spec: the Risk Categorizer (section 4.4) — the score is
the probability times 100, rounded; the confidence reported by the
classifier is carried through. -/
def categorize (label : ℕ) (p : ℚ) : FloodPrediction :=
  ⟨label, round (p * 100), riskCategoryOfScore (round (p * 100)), p⟩

/-- Modelled from the spec: the Response Assembler (section 4.6) — pure
composition, with recommendations being the flood-category actions followed
by the actions of CRITICAL or HIGH alerts de-duplicated by string. -/
def assembleResponse (city : String) (obs : Observation) (fp : FloodPrediction)
    (alerts : List WeatherAlert) (fc : List ForecastDay) : PredictionResponse :=
  ⟨city, obs, fp, alerts, fc,
    categoryActions fp.risk_category ++
      ((alerts.filter (fun a => a.severity = "CRITICAL" || a.severity = "HIGH")).flatMap
        (fun a => a.actions)).dedup⟩

/-- Modelled from the spec: the fixed enumerated 51-city configuration table
the core validates against (section 6); its contents are the flattening of
the `PAKISTAN_CITIES` tables kept in the frontend pages. -/
def SUPPORTED_CITIES : List String :=
  citiesOf PAKISTAN_CITIES_predict

/-- The error taxonomy of the core (section 7 of the spec); ModelUnavailable
is degraded-mode rather than a failure and does not appear here. -/
inductive EvalError where
  | UnknownCity : EvalError
  | UpstreamUnavailable : EvalError
  deriving DecidableEq

/-- Result of one `evaluate` run together with the number of calls made to
the Weather Provider and to the Classifier. -/
structure EvalResult where
  result : Except EvalError PredictionResponse
  weatherCalls : ℕ
  classifierCalls : ℕ

/-- Modelled from the spec: the inbound `evaluate` operation (section 6,
realized by the Flask backend absent from the sources). The city is
validated against the fixed enumerated list before any call to the external
weather service; the Weather Provider and the Classifier are parameters, and
feature derivation is folded into the classifier parameter since no claim
depends on the FeatureVector. Call counts record how often each collaborator
was invoked. -/
def evaluate (fetchCurrent : String → Except Unit Observation)
    (fetchForecast : String → Except Unit (List ForecastDay))
    (score : Observation → ℕ × ℚ) (city : String) : EvalResult :=
  if city ∈ SUPPORTED_CITIES then
    match fetchCurrent city with
    | .error _ => ⟨.error .UpstreamUnavailable, 1, 0⟩
    | .ok obs =>
      match fetchForecast city with
      | .error _ => ⟨.error .UpstreamUnavailable, 2, 0⟩
      | .ok fc =>
        let s := score obs
        ⟨.ok (assembleResponse city obs (categorize s.1 s.2) (alertEngine obs fc) fc), 2, 1⟩
  else ⟨.error .UnknownCity, 0, 0⟩

/-! ## Theorems -/

/-- Claim C1: for every risk score value, the risk categorization used by the
gauge returns exactly one of the four categories with boundaries closed on
the lower side — a value at most 30 is Low, above 30 and at most 60 is
Moderate, above 60 and at most 85 is High, above 85 is Severe (so 30 is Low,
60 is Moderate, 85 is High) — and the monitoring page categorization agrees
with it. -/
theorem C1_risk_categorization (v : ℚ) :
    ((getRiskInfo v).category = "Low" ↔ v ≤ 30) ∧
    ((getRiskInfo v).category = "Moderate" ↔ 30 < v ∧ v ≤ 60) ∧
    ((getRiskInfo v).category = "High" ↔ 60 < v ∧ v ≤ 85) ∧
    ((getRiskInfo v).category = "Severe" ↔ 85 < v) ∧
    getRiskStatus v = (getRiskInfo v).category := by
  unfold getRiskInfo getRiskStatus
  split_ifs with h1 h2 h3 <;>
    refine ⟨?_, ?_, ?_, ?_, rfl⟩ <;> simp <;> try push_neg at h1 h2 h3
  all_goals
    first
      | linarith
      | (constructor <;> linarith)
      | (intro hx; linarith)

/-- Claim C2, counterexample: at risk score 85 the alerts page flood
categorization yields Severe while both the gauge and the monitoring page
yield High, so the three places do not agree on every input. -/
theorem C2_counterexample :
    (getActiveAlerts (some ⟨some 85, []⟩) 50 "Islamabad").map (fun a => a.category)
      = ["Severe"] ∧
    getRiskStatus 85 = "High" ∧
    (getRiskInfo 85).category = "High" ∧
    ("Severe" : String) ≠ "High" := by decide

/-- Claim C2, amended: the gauge categorization and the monitoring page
categorization assign the same category to every risk score value; the
alerts page flood categorization inside getActiveAlerts uses different
boundaries (Moderate from 50, High from 70, Severe from 85, closed on the
lower side) and disagrees with them, for example at 85. -/
theorem C2_gauge_monitoring_agree (v : ℚ) :
    (getRiskInfo v).category = getRiskStatus v := by
  unfold getRiskInfo getRiskStatus
  split_ifs <;> rfl

/-- Claim C4: each of the three city tables (Predict, Monitoring, Historical
pages) groups exactly 51 distinct cities under exactly 7 provinces or
territories, and all three flatten to the same list of city names. -/
theorem C4_city_tables :
    PAKISTAN_CITIES_predict.length = 7 ∧
    PAKISTAN_CITIES_monitoring.length = 7 ∧
    PAKISTAN_CITIES_historical.length = 7 ∧
    (citiesOf PAKISTAN_CITIES_predict).length = 51 ∧
    (citiesOf PAKISTAN_CITIES_predict).Nodup ∧
    citiesOf PAKISTAN_CITIES_monitoring = citiesOf PAKISTAN_CITIES_predict ∧
    citiesOf PAKISTAN_CITIES_historical = citiesOf PAKISTAN_CITIES_predict := by
  decide

/-- Claim C3: evaluating any city outside the supported 51-city table fails
with UnknownCity, the validation happening before any external call, so the
Weather Provider and the Classifier are each called zero times — for every
behaviour of the external collaborators. -/
theorem C3_unknown_city (fetchCurrent : String → Except Unit Observation)
    (fetchForecast : String → Except Unit (List ForecastDay))
    (score : Observation → ℕ × ℚ) (city : String)
    (h : city ∉ SUPPORTED_CITIES) :
    (evaluate fetchCurrent fetchForecast score city).result
        = .error .UnknownCity ∧
    (evaluate fetchCurrent fetchForecast score city).weatherCalls = 0 ∧
    (evaluate fetchCurrent fetchForecast score city).classifierCalls = 0 := by
  unfold evaluate
  rw [if_neg h]
  exact ⟨rfl, rfl, rfl⟩

/-- Claim C3, witness: the city Atlantis is not in the table, so its
evaluation fails with UnknownCity and makes no external calls. -/
theorem C3_unknown_city_witness :
    ("Atlantis" ∉ SUPPORTED_CITIES) ∧
    ((evaluate (fun _ => .error ()) (fun _ => .error ()) (fun _ => (0, 0))
        "Atlantis").result = .error .UnknownCity ∧
      (evaluate (fun _ => .error ()) (fun _ => .error ()) (fun _ => (0, 0))
        "Atlantis").weatherCalls = 0 ∧
      (evaluate (fun _ => .error ()) (fun _ => .error ()) (fun _ => (0, 0))
        "Atlantis").classifierCalls = 0) :=
  ⟨by decide,
   C3_unknown_city (fun _ => .error ()) (fun _ => .error ()) (fun _ => (0, 0))
     "Atlantis" (by decide)⟩

/-- Claim C5: whenever wind speed is at least 25 and rainfall at least 50 in
the same observation, the Hazard Alert Engine emits exactly one CRITICAL
STORM alert for that observation and no separate HIGH_WIND or HEAVY_RAIN
alert. -/
theorem C5_critical_storm (o : Observation)
    (h1 : 25 ≤ o.wind_speed) (h2 : 50 ≤ o.rainfall) :
    ((currentAlerts o).filter (fun a => a.alert_type = "STORM")).map
        (fun a => a.severity) = ["CRITICAL"] ∧
    (∀ a ∈ currentAlerts o,
      a.alert_type ≠ "HIGH_WIND" ∧ a.alert_type ≠ "HEAVY_RAIN") := by
  have hs : stormAlerts o =
      [mkAlert "STORM" "CRITICAL" "Severe storm conditions."
        none (some o.wind_speed) (some o.rainfall)] := by
    unfold stormAlerts
    rw [if_pos ⟨h1, h2⟩]
  constructor
  · unfold currentAlerts
    rw [hs]
    unfold heatAlerts coldAlerts
    split_ifs <;> simp [mkAlert]
  · intro a ha
    unfold currentAlerts at ha
    rw [hs] at ha
    unfold heatAlerts coldAlerts at ha
    split_ifs at ha <;> simp [mkAlert] at ha <;>
      first
        | (subst ha; exact ⟨by simp, by simp⟩)
        | (rcases ha with rfl | rfl <;> exact ⟨by simp, by simp⟩)
        | (rcases ha with rfl | rfl | rfl <;> exact ⟨by simp, by simp⟩)

/-- Claim C5, witness: an observation with wind speed 26 and rainfall 60
yields exactly one CRITICAL storm alert and no wind or rain alert. -/
theorem C5_critical_storm_witness :
    ((currentAlerts ⟨"Karachi", 20, 50, 60, 26, 1000⟩).filter
        (fun a => a.alert_type = "STORM")).map (fun a => a.severity)
      = ["CRITICAL"] ∧
    (∀ a ∈ currentAlerts ⟨"Karachi", 20, 50, 60, 26, 1000⟩,
      a.alert_type ≠ "HIGH_WIND" ∧ a.alert_type ≠ "HEAVY_RAIN") :=
  C5_critical_storm ⟨"Karachi", 20, 50, 60, 26, 1000⟩ (by norm_num) (by norm_num)

/-- Claim C6: a temperature of at least 40 yields exactly one HEATWAVE alert
whose severity is HIGH below 45 and CRITICAL from 45 on; in particular an
evaluation whose mocked current weather has temperature 46, wind speed 5 and
rainfall 0 yields a weather alert list consisting of exactly one HEATWAVE
alert with severity CRITICAL. -/
theorem C6_heatwave (o : Observation) (h : 40 ≤ o.temperature) :
    ((currentAlerts o).filter (fun a => a.alert_type = "HEATWAVE")).map
        (fun a => a.severity)
      = [if 45 ≤ o.temperature then "CRITICAL" else "HIGH"] ∧
    ((evaluate (fun _ => .ok ⟨"Lahore", 46, 50, 0, 5, 1010⟩) (fun _ => .ok [])
        (fun _ => (0, 0)) "Lahore").result).map
        (fun r => r.weather_alerts.map (fun a => (a.alert_type, a.severity)))
      = .ok [("HEATWAVE", "CRITICAL")] := by
  constructor
  · have hcold : coldAlerts o = [] := by
      unfold coldAlerts
      rw [if_neg (by linarith), if_neg (by linarith)]
    unfold currentAlerts
    rw [hcold]
    unfold heatAlerts stormAlerts
    split_ifs with h45 hsw hw1 hw2 hr1 hr2 <;> simp [mkAlert]
  · rfl

/-- Claim C6, witness: at the mocked observation with temperature 46 the
engine emits exactly one HEATWAVE alert, with severity CRITICAL. -/
theorem C6_heatwave_witness :
    ((currentAlerts ⟨"Lahore", 46, 50, 0, 5, 1010⟩).filter
        (fun a => a.alert_type = "HEATWAVE")).map (fun a => a.severity)
      = [if (45 : ℚ) ≤ (46 : ℚ) then "CRITICAL" else "HIGH"] ∧
    ((evaluate (fun _ => .ok ⟨"Lahore", 46, 50, 0, 5, 1010⟩) (fun _ => .ok [])
        (fun _ => (0, 0)) "Lahore").result).map
        (fun r => r.weather_alerts.map (fun a => (a.alert_type, a.severity)))
      = .ok [("HEATWAVE", "CRITICAL")] :=
  C6_heatwave ⟨"Lahore", 46, 50, 0, 5, 1010⟩ (by norm_num)

/-- An alert severity lying in the three-value range of the alert engine. -/
def sevOk (a : WeatherAlert) : Prop :=
  a.severity = "MODERATE" ∨ a.severity = "HIGH" ∨ a.severity = "CRITICAL"

lemma sevOk_heatAlerts (o : Observation) : ∀ a ∈ heatAlerts o, sevOk a := by
  intro a ha
  unfold heatAlerts at ha
  split_ifs at ha <;> simp [mkAlert] at ha <;> subst ha <;> simp [sevOk]

lemma sevOk_coldAlerts (o : Observation) : ∀ a ∈ coldAlerts o, sevOk a := by
  intro a ha
  unfold coldAlerts at ha
  split_ifs at ha <;> simp [mkAlert] at ha <;> subst ha <;> simp [sevOk]

lemma sevOk_stormAlerts (o : Observation) : ∀ a ∈ stormAlerts o, sevOk a := by
  intro a ha
  unfold stormAlerts at ha
  split_ifs at ha <;> simp [mkAlert] at ha <;>
    first
      | (subst ha; simp [sevOk])
      | (rcases ha with rfl | rfl <;> simp [sevOk])

lemma sevOk_dayAlerts (d : ForecastDay) : ∀ a ∈ dayAlerts d, sevOk a := by
  intro a ha
  unfold dayAlerts at ha
  split_ifs at ha <;> simp [mkForecastAlert] at ha <;>
    first
      | (subst ha; simp [sevOk])
      | (rcases ha with rfl | rfl <;> simp [sevOk])
      | (rcases ha with rfl | rfl | rfl <;> simp [sevOk])
      | (rcases ha with rfl | rfl | rfl | rfl <;> simp [sevOk])

lemma sevOk_alertEngine (o : Observation) (fc : List ForecastDay) :
    ∀ a ∈ alertEngine o fc, sevOk a := by
  intro a ha
  unfold alertEngine currentAlerts at ha
  rcases List.mem_append.1 ha with h | h
  · rcases List.mem_append.1 h with h2 | h2
    · rcases List.mem_append.1 h2 with h3 | h3
      · exact sevOk_heatAlerts o a h3
      · exact sevOk_coldAlerts o a h3
    · exact sevOk_stormAlerts o a h2
  · rcases List.mem_flatten.1 h with ⟨l, hl, hal⟩
    rcases List.mem_map.1 hl with ⟨d, _, rfl⟩
    exact sevOk_dayAlerts d a hal

/-- Claim C7: every weather alert carried in a successful prediction
response has a severity that is one of exactly the three values MODERATE,
HIGH or CRITICAL. -/
theorem C7_alert_severities (fetchCurrent : String → Except Unit Observation)
    (fetchForecast : String → Except Unit (List ForecastDay))
    (score : Observation → ℕ × ℚ) (city : String) (r : PredictionResponse)
    (h : (evaluate fetchCurrent fetchForecast score city).result = Except.ok r) :
    ∀ a ∈ r.weather_alerts,
      a.severity = "MODERATE" ∨ a.severity = "HIGH" ∨ a.severity = "CRITICAL" := by
  unfold evaluate at h
  by_cases hc : city ∈ SUPPORTED_CITIES
  · rw [if_pos hc] at h
    cases hcur : fetchCurrent city with
    | error e => rw [hcur] at h; simp at h
    | ok obs =>
      rw [hcur] at h
      cases hfc : fetchForecast city with
      | error e => rw [hfc] at h; simp at h
      | ok fc =>
        rw [hfc] at h
        simp only [Except.ok.injEq] at h
        subst h
        intro a ha
        simp only [assembleResponse] at ha
        exact sevOk_alertEngine obs fc a ha
  · rw [if_neg hc] at h
    simp at h

/-- Claim C7, witness: the HEATWAVE alert carried by the response of a
concrete evaluation has one of the three severities. -/
theorem C7_alert_severities_witness :
    (mkAlert "HEATWAVE" "CRITICAL" "Extreme heatwave conditions."
        (some 46) none none).severity = "MODERATE" ∨
    (mkAlert "HEATWAVE" "CRITICAL" "Extreme heatwave conditions."
        (some 46) none none).severity = "HIGH" ∨
    (mkAlert "HEATWAVE" "CRITICAL" "Extreme heatwave conditions."
        (some 46) none none).severity = "CRITICAL" := by
  have h := C7_alert_severities (fun _ => .ok ⟨"Lahore", 46, 50, 0, 5, 1010⟩)
    (fun _ => .ok []) (fun _ => (0, 0)) "Lahore"
    (assembleResponse "Lahore" ⟨"Lahore", 46, 50, 0, 5, 1010⟩ (categorize 0 0)
      (alertEngine ⟨"Lahore", 46, 50, 0, 5, 1010⟩ []) []) rfl
  exact h _ (by decide)

/-- Claim C8: checkHealth is total — on a successful fetch whose body parses
it returns the parsed value, and on every failure (network throw or a
throwing json parse) it returns the object with status unhealthy and message
Cannot connect to backend, never propagating the error. -/
theorem C8_checkHealth_total :
    (∀ d : Js, checkHealth (Except.ok (Except.ok d)) = d) ∧
    checkHealth (Except.ok (Except.error ())) = healthFallback ∧
    checkHealth (Except.error ()) = healthFallback :=
  ⟨fun _ => rfl, rfl, rfl⟩

/-- Claim C9: on every non-ok response streamChat performs exactly one
callback, an onError call, and never calls onDelta or onDone; the message is
the rate-limit text for status 429, the usage-limit text for status 402,
and otherwise the error field of the parsed body (with the catch substitute
Request failed when parsing rejects) or the generic Something went wrong
fallback when that field is absent or empty. -/
theorem C9_streamChat_nonOk (parse : String → Option (Option String))
    (resp : ChatHttpResp) (h : resp.ok = false) :
    streamChat parse resp = [ChatEv.error (nonOkMessage resp)] ∧
    (resp.status = 429 → nonOkMessage resp
        = "Rate limit reached — please wait a moment and try again.") ∧
    (resp.status = 402 → nonOkMessage resp
        = "AI usage limit reached. Please add credits.") ∧
    (resp.status ≠ 429 → resp.status ≠ 402 →
      (∀ e, nonOkBody resp = some e → e ≠ "" → nonOkMessage resp = e) ∧
      ((nonOkBody resp = none ∨ nonOkBody resp = some "") →
        nonOkMessage resp = "Something went wrong.")) := by
  refine ⟨?_, ?_, ?_, ?_⟩
  · simp [streamChat, h]
  · intro h429
    simp [nonOkMessage, h429]
  · intro h402
    simp [nonOkMessage, h402]
  · intro h1 h2
    constructor
    · intro e he hne
      simp [nonOkMessage, h1, h2, he, hne]
    · intro hor
      rcases hor with hb | hb <;> simp [nonOkMessage, h1, h2, hb]

/-- Claim C9, witness: a concrete non-ok response with status 500 and a
parsed body whose error field is boom produces exactly one onError call with
that message. -/
theorem C9_streamChat_nonOk_witness :
    streamChat (fun _ => none) ⟨false, 500, some (some "boom"), none⟩
      = [ChatEv.error "boom"] :=
  ((C9_streamChat_nonOk (fun _ => none)
    ⟨false, 500, some (some "boom"), none⟩ rfl).1).trans (by decide)

/-- Claim C10: for every input prediction and every value of the random
draws, each synthetic history point built by generateHistoricalData has its
risk score in the closed interval from 0 to 100, and each zone built by
getNearbyZones has its risk in the same interval. -/
theorem C10_synthetic_risk_in_range (data : MonitoringData) (range : String)
    (draws : ℕ → RndDraw) (md : Option MonitoringData) (zdraws : ℕ → ℚ) :
    (∀ p ∈ generateHistoricalData data range draws,
      0 ≤ p.risk_score ∧ p.risk_score ≤ 100) ∧
    (∀ z ∈ getNearbyZones md zdraws, 0 ≤ z.risk ∧ z.risk ≤ 100) := by
  constructor
  · intro p hp
    simp only [generateHistoricalData] at hp
    have hp2 := (List.perm_insertionSort _ _).mem_iff.mp hp
    rcases List.mem_map.1 hp2 with ⟨i, _, rfl⟩
    dsimp only
    unfold jsMax jsMin
    split_ifs <;> constructor <;> linarith
  · intro z hz
    cases md with
    | none => simp [getNearbyZones] at hz
    | some m =>
      simp only [getNearbyZones] at hz
      have hz2 := (List.perm_insertionSort _ _).mem_iff.mp hz
      simp only [List.mem_cons, List.mem_singleton] at hz2
      rcases hz2 with rfl | rfl | rfl | rfl | rfl | rfl | h <;>
        first
          | (dsimp only; unfold jsMin jsMax; split_ifs <;> constructor <;> linarith)
          | simp at h

/-- Claim C10, witness: for a concrete prediction and all-zero draws, one
history point and one zone produced by the generators have their risk inside
the interval. -/
theorem C10_synthetic_risk_in_range_witness :
    (0 ≤ (⟨0, 40, 24, 0, 65⟩ : HistPoint).risk_score ∧
      (⟨0, 40, 24, 0, 65⟩ : HistPoint).risk_score ≤ 100) ∧
    (0 ≤ (⟨1, "Islamabad Central", 45, "2 min ago"⟩ : Zone).risk ∧
      (⟨1, "Islamabad Central", 45, "2 min ago"⟩ : Zone).risk ≤ 100) := by
  have h := C10_synthetic_risk_in_range
    ⟨some 50, 25, some 0, some 70, "Islamabad"⟩ "7d" (fun _ => ⟨0, 0, 0, 0⟩)
    (some ⟨some 50, 25, some 0, some 70, "Islamabad"⟩) (fun _ => 0)
  constructor
  · refine h.1 _ ?_
    unfold generateHistoricalData
    dsimp only
    refine ((List.perm_insertionSort _ _).mem_iff).mpr ?_
    refine List.mem_map.mpr ⟨0, ?_, ?_⟩
    · simp [rangePoints]
    · norm_num [jsMax, jsMin, numOrElse]
  · refine h.2 _ ?_
    unfold getNearbyZones
    dsimp only
    refine ((List.perm_insertionSort _ _).mem_iff).mpr ?_
    norm_num [jsMin, jsMax, numOrElse]
    rfl

end UrbanShield
